import Mathlib

/-!
MeshCore — verification of the KISS frame codec and secure-chat engine

Shallow embedding of the core algorithms of the MeshCore examples:

* `examples/kiss_modem/KISSProtocol.cpp` — the KISS frame decoder
  (`processReceivedByte`, `resetDecoder`, `handleCompleteFrame`) and encoder
  (`sendFrame`, `sendEscapedByte`);
* `examples/kiss_modem/KISSModem.cpp` — the command dispatcher
  (`onKISSFrame` and its length-validating handlers, `isValidPacketData`);
* `examples/simple_secure_chat/main.cpp` — the dedup cache
  (`isRecentMessage`), the retry engine (`trySendPendingMessage`,
  `onSendTimeout`) and the time-sync consensus (`autoSyncTime`).

Machine integers (`uint8_t`, `uint32_t`, `size_t`) are modelled as `Nat`,
with explicit `% 2 ^ 32` (resp. `% 256`) wherever the C code can overflow
or wrap.  Fixed C arrays are modelled as `List Nat`.
-/

set_option maxRecDepth 8000

namespace MeshCore

/-! ## KISS frame codec (`examples/kiss_modem/KISSProtocol.{h,cpp}`) -/

/-- Source `constexpr uint8_t FEND = 0xC0` — frame delimiter. -/
def FEND : Nat := 0xC0

/-- Source `constexpr uint8_t FESC = 0xDB` — escape byte. -/
def FESC : Nat := 0xDB

/-- Source `constexpr uint8_t TFEND = 0xDC` — transposed FEND. -/
def TFEND : Nat := 0xDC

/-- Source `constexpr uint8_t TFESC = 0xDD` — transposed FESC. -/
def TFESC : Nat := 0xDD

/-- Source `static constexpr size_t MAX_FRAME_SIZE = 512` — capacity of `_rxBuffer`
(command byte included: the whole accumulated frame lives in this buffer). -/
def MAX_FRAME_SIZE : Nat := 512

/-- Decoder state of `KISSProtocol`: the accumulation buffer `_rxBuffer`
(in arrival order), `_inFrame` and `_escaped`.  The C index `_rxIndex` is
kept in lock-step with the buffer contents by every path of the source, so
it is represented here as `rxBuffer.length`. -/
structure DecoderState where
  rxBuffer : List Nat
  inFrame : Bool
  escaped : Bool
deriving Repr, DecidableEq

/-- Source `KISSProtocol::resetDecoder` (KISSProtocol.cpp:10-14). -/
def resetDecoder : DecoderState :=
  { rxBuffer := [], inFrame := false, escaped := false }

/-- Source `KISSProtocol::handleCompleteFrame` (KISSProtocol.cpp:57-67): emit
`(command, payload)` from the accumulated buffer; guard `_rxIndex < 1`. -/
def handleCompleteFrame (s : DecoderState) : Option (Nat × List Nat) :=
  if s.rxBuffer.length < 1 then none
  else
    match s.rxBuffer with
    | [] => none
    | c :: rest => some (c, rest)

/-- Append one (already unescaped) byte to the buffer if `_rxIndex <
MAX_FRAME_SIZE`, else reset (KISSProtocol.cpp:50-54). -/
def appendRxByte (s : DecoderState) (b : Nat) : DecoderState × Option (Nat × List Nat) :=
  if s.rxBuffer.length < MAX_FRAME_SIZE then
    ({ s with rxBuffer := s.rxBuffer ++ [b] }, none)
  else
    (resetDecoder, none)

/-- Source `KISSProtocol::processReceivedByte` (KISSProtocol.cpp:23-55).  Returns the
new decoder state and the frame emitted by this byte, if any.  Note the FEND
test comes first, before the `_escaped` handling, exactly as in the source. -/
def processReceivedByte (s : DecoderState) (b : Nat) :
    DecoderState × Option (Nat × List Nat) :=
  if b = FEND then
    ({ resetDecoder with inFrame := true },
     if s.inFrame ∧ s.rxBuffer.length > 0 then handleCompleteFrame s else none)
  else if s.inFrame then
    if s.escaped then
      if b = TFEND then appendRxByte { s with escaped := false } FEND
      else if b = TFESC then appendRxByte { s with escaped := false } FESC
      else (resetDecoder, none)
    else if b = FESC then
      ({ s with escaped := true }, none)
    else
      appendRxByte s b
  else
    (s, none)

/-- Source `KISSProtocol::process` (KISSProtocol.cpp:16-21): feed a list of raw bytes
through the decoder, collecting the emitted frames in order. -/
def process (s : DecoderState) : List Nat → DecoderState × List (Nat × List Nat)
  | [] => (s, [])
  | b :: rest =>
    let step := processReceivedByte s b
    let tail := process step.1 rest
    (tail.1, match step.2 with
             | none => tail.2
             | some f => f :: tail.2)

/-- Source `KISSProtocol::sendEscapedByte` (KISSProtocol.cpp:85-95): the on-wire
bytes written for one frame byte. -/
def sendEscapedByte (b : Nat) : List Nat :=
  if b = FEND then [FESC, TFEND]
  else if b = FESC then [FESC, TFESC]
  else [b]

/-- Source `KISSProtocol::sendFrame` (KISSProtocol.cpp:69-83): leading FEND, escaped
command byte, escaped payload bytes, trailing FEND. -/
def sendFrame (command : Nat) (data : List Nat) : List Nat :=
  [FEND] ++ sendEscapedByte command ++ data.flatMap sendEscapedByte ++ [FEND]

/-! ### Decoder lemmas -/

theorem process_append (xs : List Nat) : ∀ (ys : List Nat) (s : DecoderState),
    process s (xs ++ ys) =
      ((process (process s xs).1 ys).1,
        (process s xs).2 ++ (process (process s xs).1 ys).2) := by
  induction xs with
  | nil => intro ys s; simp [process]
  | cons b rest ih =>
    intro ys s
    simp only [List.cons_append, process, List.append_eq]
    rw [ih]
    cases (processReceivedByte s b).2 <;> simp

/-- A decoder mid-frame (not escaped, room left) consumes the escaped form of
one in-range byte and just appends that byte to the buffer. -/
theorem process_sendEscapedByte (buf : List Nat) (b : Nat)
    (hroom : buf.length < MAX_FRAME_SIZE) :
    process { rxBuffer := buf, inFrame := true, escaped := false }
        (sendEscapedByte b)
      = ({ rxBuffer := buf ++ [b], inFrame := true, escaped := false }, []) := by
  by_cases hFE : b = FEND
  · subst hFE
    simp [sendEscapedByte, process, processReceivedByte, appendRxByte, hroom,
      FEND, FESC, TFEND, TFESC]
  · by_cases hFS : b = FESC
    · subst hFS
      simp [sendEscapedByte, process, processReceivedByte, appendRxByte, hroom,
        FEND, FESC, TFEND, TFESC]
    · simp [sendEscapedByte, hFE, hFS, process, processReceivedByte,
        appendRxByte, hroom]

/-- Feeding the escaped form of bytes `data` to a mid-frame decoder with room
for them appends exactly `data` to the buffer and emits nothing. -/
theorem process_escaped_data (data : List Nat) : ∀ buf : List Nat,
    buf.length + data.length ≤ MAX_FRAME_SIZE →
    process { rxBuffer := buf, inFrame := true, escaped := false }
        (data.flatMap sendEscapedByte)
      = ({ rxBuffer := buf ++ data, inFrame := true, escaped := false }, []) := by
  induction data with
  | nil => intro buf _; simp [process]
  | cons b rest ih =>
    intro buf hcap
    have hroom : buf.length < MAX_FRAME_SIZE := by
      simp only [List.length_cons] at hcap; omega
    rw [List.flatMap_cons, process_append, process_sendEscapedByte buf b hroom]
    have hcap' : (buf ++ [b]).length + rest.length ≤ MAX_FRAME_SIZE := by
      simp only [List.length_append, List.length_cons, List.length_nil] at hcap ⊢
      omega
    rw [ih (buf ++ [b]) hcap']
    simp

/-- Decoding one encoded frame from the just-reset (or just-delimited) state
emits exactly that frame, provided the whole frame (command byte + payload)
fits the 512-byte buffer, i.e. the payload is at most 511 bytes. -/
theorem process_sendFrame (command : Nat) (payload : List Nat)
    (hl : payload.length ≤ 511) :
    process resetDecoder (sendFrame command payload)
      = ({ resetDecoder with inFrame := true }, [(command, payload)]) := by
  have hflat : sendFrame command payload
      = [FEND] ++ ((command :: payload).flatMap sendEscapedByte ++ [FEND]) := by
    simp [sendFrame, List.flatMap_cons]
  rw [hflat]
  have hstep : processReceivedByte resetDecoder FEND
      = ({ rxBuffer := [], inFrame := true, escaped := false }, none) := by
    simp [processReceivedByte, resetDecoder]
  simp only [List.singleton_append, process, hstep, List.append_eq,
    List.nil_append]
  have hcap : ([] : List Nat).length + (command :: payload).length ≤ MAX_FRAME_SIZE := by
    simp only [List.length_nil, List.length_cons, MAX_FRAME_SIZE]; omega
  rw [process_append, process_escaped_data (command :: payload) [] hcap]
  have hfinal : process (⟨[] ++ command :: payload, true, false⟩ : DecoderState)
        [FEND]
      = ({ resetDecoder with inFrame := true }, [(command, payload)]) := by
    simp [process, processReceivedByte, handleCompleteFrame, resetDecoder]
  rw [hfinal]
  simp

theorem flatMap_sendEscapedByte_zeros (n : Nat) :
    (List.replicate n 0).flatMap sendEscapedByte = List.replicate n 0 := by
  induction n with
  | zero => simp
  | succ k ih =>
    rw [List.replicate_succ, List.flatMap_cons, ih]
    simp [sendEscapedByte, FEND, FESC]

/-- C1 (amended): for every command byte and every payload of length at
most **511** bytes, decoding the byte sequence produced by
`KISSProtocol::sendFrame` from the reset state yields exactly the frame
`(command, payload)` back.  (The 512-byte `_rxBuffer` holds the command byte
plus the payload, so 511 — not 512 — is the largest round-trippable payload.) -/
theorem kiss_roundtrip_payload_le_511 (command : Nat) (payload : List Nat)
    (hc : command < 256) (hp : ∀ b ∈ payload, b < 256)
    (hl : payload.length ≤ 511) :
    (process resetDecoder (sendFrame command payload)).2 = [(command, payload)] := by
  rw [process_sendFrame command payload hl]

/-- Witness for `kiss_roundtrip_payload_le_511` at command `0x05` and the
payload `[0xC0, 0xDB, 0x01]`, which exercises both escape sequences. -/
theorem kiss_roundtrip_payload_le_511_witness :
    (5 : Nat) < 256 ∧ (∀ b ∈ [0xC0, 0xDB, 1], b < 256) ∧
      ([0xC0, 0xDB, 1] : List Nat).length ≤ 511 ∧
      (process resetDecoder (sendFrame 5 [0xC0, 0xDB, 1])).2 = [(5, [0xC0, 0xDB, 1])] :=
  ⟨by decide, by decide, by decide,
    kiss_roundtrip_payload_le_511 5 [0xC0, 0xDB, 1] (by decide) (by decide) (by decide)⟩

/-- C1 (counterexample): the claim as stated fails at payload length 512.
A 512-byte payload makes a 513-byte frame; the 513th byte finds
`_rxIndex = 512 = MAX_FRAME_SIZE`, the decoder resets, and no frame at all
is produced. -/
theorem kiss_roundtrip_payload_512_fails :
    (process resetDecoder (sendFrame 0 (List.replicate 512 0))).2 = [] ∧
      (process resetDecoder (sendFrame 0 (List.replicate 512 0))).2
        ≠ [(0, List.replicate 512 0)] := by
  have hesc0 : sendEscapedByte 0 = [0] := by simp [sendEscapedByte, FEND, FESC]
  have h513 : ([0] : List Nat) ++ List.replicate 512 0
      = List.replicate 512 0 ++ [0] := by
    rw [show (([0] : List Nat) ++ List.replicate 512 0)
          = List.replicate 513 0 from rfl,
      show (513 : Nat) = 512 + 1 from rfl, List.replicate_succ']
  have hflat : sendFrame 0 (List.replicate 512 0)
      = [FEND] ++ (List.replicate 512 0 ++ ([0] ++ [FEND])) := by
    simp only [sendFrame, hesc0, flatMap_sendEscapedByte_zeros,
      List.append_assoc]
    rw [← List.append_assoc [0], h513, List.append_assoc]
  rw [hflat, process_append]
  have hfend1 : process resetDecoder [FEND] = (⟨[], true, false⟩, []) := by
    simp [process, processReceivedByte, resetDecoder]
  rw [hfend1, process_append]
  have hzeros : process (⟨[], true, false⟩ : DecoderState)
        (List.replicate 512 0)
      = (⟨List.replicate 512 0, true, false⟩, []) := by
    have h := process_escaped_data (List.replicate 512 0) []
      (by simp [MAX_FRAME_SIZE])
    rwa [flatMap_sendEscapedByte_zeros, List.nil_append] at h
  rw [hzeros]
  have hover : process (⟨List.replicate 512 0, true, false⟩ : DecoderState)
        ([0] ++ [FEND])
      = (⟨[], true, false⟩, []) := by
    have h1 : processReceivedByte (⟨List.replicate 512 0, true, false⟩ :
          DecoderState) 0 = (resetDecoder, none) := by
      simp [processReceivedByte, appendRxByte, FEND, FESC, TFEND, TFESC,
        List.length_replicate, MAX_FRAME_SIZE]
    have h2 : processReceivedByte resetDecoder FEND
        = (⟨[], true, false⟩, none) := by
      simp [processReceivedByte, resetDecoder]
    simp only [show ([0] ++ [FEND] : List Nat) = [0, FEND] from rfl,
      process, h1, h2]
  rw [hover]
  simp

/-- C7 (amended): when the decoder is mid-frame (any partial buffer, not
escaped) and receives the invalid escape sequence `0xDB` followed by any byte
other than `0xDC` (TFEND), `0xDD` (TFESC) **or `0xC0` (FEND)**, then one
well-formed encoded frame (payload at most 511 bytes), exactly that one frame
is decoded — the corrupted partial frame is silently dropped. -/
theorem kiss_decoder_self_healing_non_fend (buf : List Nat) (x : Nat)
    (command : Nat) (payload : List Nat)
    (hx1 : x ≠ TFEND) (hx2 : x ≠ TFESC) (hx3 : x ≠ FEND)
    (hl : payload.length ≤ 511) :
    (process (⟨buf, true, false⟩ : DecoderState)
        ([FESC, x] ++ sendFrame command payload)).2 = [(command, payload)] := by
  have hdrop : process (⟨buf, true, false⟩ : DecoderState) [FESC, x]
      = (resetDecoder, []) := by
    have h1 : processReceivedByte (⟨buf, true, false⟩ : DecoderState) FESC
        = (⟨buf, true, true⟩, none) := by
      simp [processReceivedByte, FEND, FESC]
    have h2 : processReceivedByte (⟨buf, true, true⟩ : DecoderState) x
        = (resetDecoder, none) := by
      simp [processReceivedByte, hx1, hx2, hx3]
    simp [process, h1, h2]
  rw [process_append, hdrop, process_sendFrame command payload hl]
  simp

/-- Witness for `kiss_decoder_self_healing_non_fend`: mid-frame buffer
`[0x41]`, invalid escape `0xDB 0x00`, then the frame for `(0x42, [0x43])`. -/
theorem kiss_decoder_self_healing_non_fend_witness :
    (0 : Nat) ≠ TFEND ∧ (0 : Nat) ≠ TFESC ∧ (0 : Nat) ≠ FEND ∧
      ([0x43] : List Nat).length ≤ 511 ∧
      (process (⟨[0x41], true, false⟩ : DecoderState)
          ([FESC, 0] ++ sendFrame 0x42 [0x43])).2 = [(0x42, [0x43])] :=
  ⟨by decide, by decide, by decide, by decide,
    kiss_decoder_self_healing_non_fend [0x41] 0 0x42 [0x43]
      (by decide) (by decide) (by decide) (by decide)⟩

/-- C7 (counterexample): the byte `0xC0` is "other than `0xDC`/`0xDD`",
yet `0xDB 0xC0` mid-frame does not reset the decoder: the FEND test runs
before the escape handling, so the corrupted partial frame (here command
`0x41` with empty payload, accumulated after `[0xC0, 0x41]`) is emitted as a
completed frame, and the following well-formed frame makes a second one —
two frames, not "exactly one". -/
theorem kiss_decoder_escaped_fend_leaks_partial_frame :
    (process resetDecoder ([FEND, 0x41, FESC, FEND] ++ sendFrame 0x42 [0x43])).2
        = [(0x41, []), (0x42, [0x43])] ∧
      (process resetDecoder ([FEND, 0x41, FESC, FEND] ++ sendFrame 0x42 [0x43])).2
        ≠ [(0x42, [0x43])] := by
  constructor
  · rfl
  · decide

/-! ## KISS modem command dispatcher (`examples/kiss_modem/KISSModem.cpp`)

The length-validation logic of the handlers lives in `KISSModem.cpp` and is
translated verbatim below.  The size constants `PUB_KEY_SIZE`,
`CIPHER_KEY_SIZE`, `CIPHER_MAC_SIZE` and `MAX_TRANS_UNIT` are declared in
the MeshCore library headers (not part of this tree), so they are carried as
parameters; every theorem holds for all values.  The cryptographic
operations themselves (`sign`, `encryptThenMAC`, `MACThenDecrypt`,
`calcSharedSecret`, `sha256`) are external collaborators: a handler result
of `some effect` means the operation is invoked (and a response frame may be
emitted), `none` means the handler returned silently — no operation, no
response frame, no `frames_to_serial` increment. -/

/-- Command byte constants (KISSProtocol.h:14-26). -/
def CMD_DATA : Nat := 0x00

def CMD_GET_IDENTITY : Nat := 0x01

def CMD_SIGN_DATA : Nat := 0x04

def CMD_ENCRYPT_DATA : Nat := 0x05

def CMD_DECRYPT_DATA : Nat := 0x06

def CMD_KEY_EXCHANGE : Nat := 0x07

def CMD_HASH : Nat := 0x08

/-- The operation a dispatched frame triggers (observable effect class). -/
inductive HandlerEffect where
  | identityResp
  | dataForwarded
  | signed
  | encrypted
  | decrypted
  | sharedSecret
  | hashed
deriving Repr, DecidableEq

/-- Source `KISSModem::handleSignRequest` (KISSModem.cpp:98-106):
`if (len == 0 || len > 1024) return;`. -/
def handleSignRequest (len : Nat) : Option HandlerEffect :=
  if len = 0 ∨ len > 1024 then none else some .signed

/-- Source `KISSModem::handleEncryptRequest` (KISSModem.cpp:108-126):
`if (len < CIPHER_KEY_SIZE + 1 || len > 512) return;`. -/
def handleEncryptRequest (cipherKeySize len : Nat) : Option HandlerEffect :=
  if len < cipherKeySize + 1 ∨ len > 512 then none else some .encrypted

/-- Source `KISSModem::handleDecryptRequest` (KISSModem.cpp:128-146):
`if (len < CIPHER_KEY_SIZE + CIPHER_MAC_SIZE + 16 || len > 512) return;`. -/
def handleDecryptRequest (cipherKeySize cipherMacSize len : Nat) :
    Option HandlerEffect :=
  if len < cipherKeySize + cipherMacSize + 16 ∨ len > 512 then none
  else some .decrypted

/-- Source `KISSModem::handleKeyExchangeRequest` (KISSModem.cpp:148-156):
`if (len != PUB_KEY_SIZE) return;`. -/
def handleKeyExchangeRequest (pubKeySize len : Nat) : Option HandlerEffect :=
  if len ≠ pubKeySize then none else some .sharedSecret

/-- Source `KISSModem::handleHashRequest` (KISSModem.cpp:158-166):
`if (len == 0 || len > 512) return;`. -/
def handleHashRequest (len : Nat) : Option HandlerEffect :=
  if len = 0 ∨ len > 512 then none else some .hashed

/-- Source `KISSModem::isValidPacketData` (KISSModem.cpp:182-192).  `header & 0x03`
is `header % 4`; `(header >> 2) & 0x0F` is `(header / 4) % 16`. -/
def isValidPacketData (maxTransUnit : Nat) (data : List Nat) : Bool :=
  if data.length < 2 ∨ data.length > maxTransUnit then false
  else
    let header := data.headD 0
    let route_type := header % 4
    let payload_type := (header / 4) % 16
    if route_type > 3 ∨ payload_type > 15 then false else true

/-- Source `KISSModem::handleDataFrame` (KISSModem.cpp:168-180).  Packet-pool
allocation and `Packet::readFrom` are external collaborators; `some` means
the structurally valid packet is handed to the transport. -/
def handleDataFrame (maxTransUnit : Nat) (data : List Nat) :
    Option HandlerEffect :=
  if isValidPacketData maxTransUnit data then some .dataForwarded else none

/-- Source `KISSModem::onKISSFrame` (KISSModem.cpp:52-88): switch over the command
byte. -/
def onKISSFrame (pubKeySize cipherKeySize cipherMacSize maxTransUnit : Nat)
    (command : Nat) (data : List Nat) : Option HandlerEffect :=
  if command = CMD_DATA then handleDataFrame maxTransUnit data
  else if command = CMD_GET_IDENTITY then some .identityResp
  else if command = CMD_SIGN_DATA then handleSignRequest data.length
  else if command = CMD_ENCRYPT_DATA then
    handleEncryptRequest cipherKeySize data.length
  else if command = CMD_DECRYPT_DATA then
    handleDecryptRequest cipherKeySize cipherMacSize data.length
  else if command = CMD_KEY_EXCHANGE then
    handleKeyExchangeRequest pubKeySize data.length
  else if command = CMD_HASH then handleHashRequest data.length
  else none

/-- C9 (confirmed): for every dispatched frame whose payload violates the
command's length constraint (SIGN_DATA empty or over 1024, HASH empty or
over 512, KEY_EXCHANGE not exactly the public-key size, ENCRYPT_DATA /
DECRYPT_DATA below their minimum or above 512), the dispatcher performs no
operation and emits no response frame: the handler returns silently. -/
theorem kiss_dispatch_silent_drop (pubKeySize cipherKeySize cipherMacSize
    maxTransUnit command : Nat) (data : List Nat)
    (hviol :
      (command = CMD_SIGN_DATA ∧ (data.length = 0 ∨ data.length > 1024)) ∨
      (command = CMD_HASH ∧ (data.length = 0 ∨ data.length > 512)) ∨
      (command = CMD_KEY_EXCHANGE ∧ data.length ≠ pubKeySize) ∨
      (command = CMD_ENCRYPT_DATA ∧
        (data.length < cipherKeySize + 1 ∨ data.length > 512)) ∨
      (command = CMD_DECRYPT_DATA ∧
        (data.length < cipherKeySize + cipherMacSize + 16 ∨ data.length > 512))) :
    onKISSFrame pubKeySize cipherKeySize cipherMacSize maxTransUnit
      command data = none := by
  rcases hviol with ⟨hc, hv⟩ | ⟨hc, hv⟩ | ⟨hc, hv⟩ | ⟨hc, hv⟩ | ⟨hc, hv⟩ <;>
    subst hc
  · rw [show onKISSFrame pubKeySize cipherKeySize cipherMacSize maxTransUnit
          CMD_SIGN_DATA data = handleSignRequest data.length by
        simp [onKISSFrame, CMD_DATA, CMD_GET_IDENTITY, CMD_SIGN_DATA],
      handleSignRequest, if_pos hv]
  · rw [show onKISSFrame pubKeySize cipherKeySize cipherMacSize maxTransUnit
          CMD_HASH data = handleHashRequest data.length by
        simp [onKISSFrame, CMD_DATA, CMD_GET_IDENTITY, CMD_SIGN_DATA,
          CMD_ENCRYPT_DATA, CMD_DECRYPT_DATA, CMD_KEY_EXCHANGE, CMD_HASH],
      handleHashRequest, if_pos hv]
  · rw [show onKISSFrame pubKeySize cipherKeySize cipherMacSize maxTransUnit
          CMD_KEY_EXCHANGE data = handleKeyExchangeRequest pubKeySize data.length by
        simp [onKISSFrame, CMD_DATA, CMD_GET_IDENTITY, CMD_SIGN_DATA,
          CMD_ENCRYPT_DATA, CMD_DECRYPT_DATA, CMD_KEY_EXCHANGE],
      handleKeyExchangeRequest, if_pos hv]
  · rw [show onKISSFrame pubKeySize cipherKeySize cipherMacSize maxTransUnit
          CMD_ENCRYPT_DATA data = handleEncryptRequest cipherKeySize data.length by
        simp [onKISSFrame, CMD_DATA, CMD_GET_IDENTITY, CMD_SIGN_DATA,
          CMD_ENCRYPT_DATA],
      handleEncryptRequest, if_pos hv]
  · rw [show onKISSFrame pubKeySize cipherKeySize cipherMacSize maxTransUnit
          CMD_DECRYPT_DATA data
            = handleDecryptRequest cipherKeySize cipherMacSize data.length by
        simp [onKISSFrame, CMD_DATA, CMD_GET_IDENTITY, CMD_SIGN_DATA,
          CMD_ENCRYPT_DATA, CMD_DECRYPT_DATA],
      handleDecryptRequest, if_pos hv]

/-- Witness for `kiss_dispatch_silent_drop`: a SIGN_DATA frame with an empty
payload (sizes as in MeshCore: pub key 32, cipher key 16, MAC 2, MTU 184). -/
theorem kiss_dispatch_silent_drop_witness :
    ((4 : Nat) = CMD_SIGN_DATA ∧ (([] : List Nat).length = 0 ∨ ([] : List Nat).length > 1024)) ∧
      onKISSFrame 32 16 2 184 4 [] = none :=
  ⟨⟨by decide, Or.inl (by decide)⟩,
    kiss_dispatch_silent_drop 32 16 2 184 4 [] (Or.inl ⟨by decide, Or.inl rfl⟩)⟩

/-- C10 (confirmed): every DATA payload whose length is between 2 and the
maximum transport unit passes `isValidPacketData` regardless of the header
byte: the extracted route-type and payload-type fields are masked to 2 and
4 bits, so the `> 3` / `> 15` rejections can never fire. -/
theorem isValidPacketData_header_check_vacuous (maxTransUnit : Nat)
    (data : List Nat) (h2 : 2 ≤ data.length) (hmtu : data.length ≤ maxTransUnit) :
    isValidPacketData maxTransUnit data = true := by
  have hroute : (data.headD 0) % 4 ≤ 3 :=
    Nat.lt_succ_iff.mp (Nat.mod_lt _ (by omega))
  have hpayload : ((data.headD 0) / 4) % 16 ≤ 15 :=
    Nat.lt_succ_iff.mp (Nat.mod_lt _ (by omega))
  simp only [isValidPacketData]
  rw [if_neg (by omega), if_neg (by omega)]

/-- Witness for `isValidPacketData_header_check_vacuous`: a 2-byte packet
whose header byte is `0xFF` (all mask bits set) with MTU 184. -/
theorem isValidPacketData_header_check_vacuous_witness :
    2 ≤ ([0xFF, 0] : List Nat).length ∧ ([0xFF, 0] : List Nat).length ≤ 184 ∧
      isValidPacketData 184 [0xFF, 0] = true :=
  ⟨by decide, by decide,
    isValidPacketData_header_check_vacuous 184 [0xFF, 0] (by decide) (by decide)⟩

/-! ## Secure-chat dedup cache (`examples/simple_secure_chat/main.cpp`) -/

/-- Source `#define RECENT_MSG_CACHE_SIZE 10` (main.cpp:150). -/
def RECENT_MSG_CACHE_SIZE : Nat := 10

/-- Source `uint32_t` subtraction `a - b`, for `a, b < 2 ^ 32`: the C expression
`now - recv_time` wraps modulo `2 ^ 32`. -/
def sub32 (a b : Nat) : Nat := (a + 2 ^ 32 - b) % 2 ^ 32

/-- Dedup state of `MyMesh` (main.cpp:179-181): the fixed ring
`recent_messages[RECENT_MSG_CACHE_SIZE]` of `(hash, recv_time)` entries and
the round-robin cursor `recent_msg_index`. -/
structure DedupState where
  recent_messages : List (Nat × Nat)
  recent_msg_index : Nat
deriving Repr, DecidableEq

/-- Source `MyMesh::isRecentMessage` (main.cpp:418-448).  The 32-bit fingerprint
`msg_hash` (a sha256 truncation of `timestamp || sender_pub_key || text`,
computed by the external `mesh::Utils::sha256`) is passed in abstractly: a
fixed `(timestamp, sender, text)` triple always yields the same `msg_hash`.
The scan returns true at the first slot whose hash matches with
`now - recv_time < 300`; otherwise the entry is recorded at the cursor slot
and the cursor advances round-robin. -/
def isRecentMessage (st : DedupState) (msg_hash now : Nat) :
    Bool × DedupState :=
  if st.recent_messages.any
      (fun e => decide (e.1 = msg_hash ∧ sub32 now e.2 < 300)) then
    (true, st)
  else
    (false,
      { recent_messages :=
          st.recent_messages.set st.recent_msg_index (msg_hash, now),
        recent_msg_index :=
          (st.recent_msg_index + 1) % RECENT_MSG_CACHE_SIZE })

theorem sub32_of_le (a b : Nat) (hba : b ≤ a) (hd : a - b < 2 ^ 32) :
    sub32 a b = a - b := by
  unfold sub32
  rw [show a + 2 ^ 32 - b = (a - b) + 2 ^ 32 by omega, Nat.add_mod_right]
  exact Nat.mod_eq_of_lt hd

/-- C6 (confirmed): for a fixed message fingerprint `h` absent from the
cache, `isRecentMessage` returns `false` at time `t0` and records `(h, t0)`;
a second call at `t1` within 300 s of `t0` returns `true` (and leaves the
cache untouched); a third call at `t2` more than 300 s after `t0` returns
`false` again — the aged entry no longer counts as a duplicate. -/
theorem isRecentMessage_miss_hit_age (st : DedupState) (h t0 t1 t2 : Nat)
    (hidx : st.recent_msg_index < st.recent_messages.length)
    (hfresh : ∀ e ∈ st.recent_messages, e.1 ≠ h)
    (h01 : t0 ≤ t1) (hwin : t1 - t0 < 300) (hage : t0 + 300 < t2)
    (ht1 : t1 < 2 ^ 32) (ht2 : t2 < 2 ^ 32) :
    (isRecentMessage st h t0).1 = false ∧
      (h, t0) ∈ (isRecentMessage st h t0).2.recent_messages ∧
      (isRecentMessage (isRecentMessage st h t0).2 h t1).1 = true ∧
      (isRecentMessage (isRecentMessage st h t0).2 h t1).2
        = (isRecentMessage st h t0).2 ∧
      (isRecentMessage (isRecentMessage st h t0).2 h t2).1 = false := by
  have hscan0 : st.recent_messages.any
      (fun e => decide (e.1 = h ∧ sub32 t0 e.2 < 300)) = false := by
    rw [List.any_eq_false]
    intro e he
    simp only [decide_eq_true_eq, not_and]
    intro h1
    exact absurd h1 (hfresh e he)
  have hst1 : isRecentMessage st h t0
      = (false,
          { recent_messages :=
              st.recent_messages.set st.recent_msg_index (h, t0),
            recent_msg_index :=
              (st.recent_msg_index + 1) % RECENT_MSG_CACHE_SIZE }) := by
    rw [isRecentMessage, hscan0]
    simp
  have hmem : (h, t0) ∈ st.recent_messages.set st.recent_msg_index (h, t0) := by
    have hlt : st.recent_msg_index
        < (st.recent_messages.set st.recent_msg_index (h, t0)).length := by
      rw [List.length_set]; exact hidx
    have hget := List.getElem_set_self (l := st.recent_messages)
      (i := st.recent_msg_index) (a := (h, t0)) (h := hlt)
    simpa [hget] using List.getElem_mem hlt
  have hsub1 : sub32 t1 t0 = t1 - t0 := sub32_of_le t1 t0 h01 (by omega)
  have hsub2 : sub32 t2 t0 = t2 - t0 := sub32_of_le t2 t0 (by omega) (by omega)
  have hscan1 : (st.recent_messages.set st.recent_msg_index (h, t0)).any
      (fun e => decide (e.1 = h ∧ sub32 t1 e.2 < 300)) = true := by
    rw [List.any_eq_true]
    refine ⟨(h, t0), hmem, ?_⟩
    have hlt300 : sub32 t1 t0 < 300 := by rw [hsub1]; omega
    simp [hlt300]
  have hscan2 : (st.recent_messages.set st.recent_msg_index (h, t0)).any
      (fun e => decide (e.1 = h ∧ sub32 t2 e.2 < 300)) = false := by
    rw [List.any_eq_false]
    intro e he
    simp only [decide_eq_true_eq, not_and]
    intro he1
    rcases List.mem_or_eq_of_mem_set he with hin | heq
    · exact absurd he1 (hfresh e hin)
    · subst heq
      rw [hsub2]
      omega
  refine ⟨?_, ?_, ?_, ?_, ?_⟩
  · simp [hst1]
  · simpa [hst1] using hmem
  · rw [hst1]; simp only [isRecentMessage]; rw [hscan1]; simp
  · rw [hst1]; simp only [isRecentMessage]; rw [hscan1]; simp
  · rw [hst1]; simp only [isRecentMessage]; rw [hscan2]; simp

/-- Witness for `isRecentMessage_miss_hit_age`: fingerprint 7 against a cache
of ten `(0, 0)` entries, first seen at `t0 = 1000`, re-seen at `t1 = 1250`
(duplicate), re-seen at `t2 = 1400` (aged out, accepted as new). -/
theorem isRecentMessage_miss_hit_age_witness :
    (0 : Nat) < (List.replicate 10 ((0 : Nat), (0 : Nat))).length ∧
      (∀ e ∈ List.replicate 10 ((0 : Nat), (0 : Nat)), e.1 ≠ 7) ∧
      (isRecentMessage ⟨List.replicate 10 (0, 0), 0⟩ 7 1000).1 = false ∧
      (isRecentMessage (isRecentMessage ⟨List.replicate 10 (0, 0), 0⟩ 7 1000).2
        7 1250).1 = true ∧
      (isRecentMessage (isRecentMessage ⟨List.replicate 10 (0, 0), 0⟩ 7 1000).2
        7 1400).1 = false := by
  have := isRecentMessage_miss_hit_age ⟨List.replicate 10 (0, 0), 0⟩ 7
    1000 1250 1400 (by decide) (by decide) (by decide) (by decide) (by decide)
    (by decide) (by decide)
  exact ⟨by decide, by decide, this.1, this.2.2.1, this.2.2.2.2⟩

/-! ## Time-sync consensus (`examples/simple_secure_chat/main.cpp:1123-1174`) -/

/-- Source `#define TIME_SAMPLE_SIZE 5` (main.cpp:190). -/
def TIME_SAMPLE_SIZE : Nat := 5

/-- Source `#define MAX_REASONABLE_TIMESTAMP 4102444800UL` (main.cpp:97). -/
def MAX_REASONABLE_TIMESTAMP : Nat := 4102444800

/-- Insert into a sorted list, keeping order. -/
def insertSorted (x : Nat) : List Nat → List Nat
  | [] => [x]
  | y :: ys => if x ≤ y then x :: y :: ys else y :: insertSorted x ys

/-- Ascending sort.  The source sorts its `sorted[]` scratch array with an
in-place bubble sort (main.cpp:1150-1159); on `uint32_t` keys every
comparison sort produces the same ascending array, so a structurally
recursive insertion sort is used as the embedding of that loop. -/
def sortNat : List Nat → List Nat
  | [] => []
  | x :: xs => insertSorted x (sortNat xs)

/-- Time-sync state of `MyMesh` (main.cpp:189-192) plus the RTC clock
collaborator: `time_samples[TIME_SAMPLE_SIZE]`, the `uint8_t`
`time_sample_count`, and `clock` standing for the external RTC
(`getRTCClock()->getCurrentTime()` / `setCurrentTime`). -/
structure TimeSyncState where
  time_samples : List Nat
  time_sample_count : Nat
  clock : Nat
deriving Repr, DecidableEq

/-- Source `MyMesh::autoSyncTime` (main.cpp:1123-1174).  `time_sample_count` is a
`uint8_t`, hence the `% 256` on increment; `% TIME_SAMPLE_SIZE` is the ring
index from the source.  `sorted[num_samples / 2]` is
`(sortNat (take num)).getD (num / 2) 0`. -/
def autoSyncTime (st : TimeSyncState) (sender_timestamp : Nat) :
    TimeSyncState :=
  let our_time := st.clock
  if sender_timestamp < 1600000000 ∨
      sender_timestamp > MAX_REASONABLE_TIMESTAMP then
    st
  else if sender_timestamp + 3600 < our_time then
    st
  else
    let samples := st.time_samples.set
      (st.time_sample_count % TIME_SAMPLE_SIZE) sender_timestamp
    let cnt := (st.time_sample_count + 1) % 256
    if cnt < 3 then
      { st with time_samples := samples, time_sample_count := cnt }
    else
      let num := min cnt TIME_SAMPLE_SIZE
      let sorted := sortNat (samples.take num)
      let median_time := sorted.getD (num / 2) 0
      if median_time > our_time + 10 then
        { time_samples := samples, time_sample_count := 0,
          clock := median_time }
      else
        { st with time_samples := samples, time_sample_count := cnt }

/-- C8 (confirmed): the consensus never moves the clock backward or in
place — an observation either leaves the clock unchanged, or (only when the
median exceeds it by more than 10 seconds) moves it strictly forward and
resets the sample counter to zero; consequently the clock is monotone over
any sequence of observations. -/
theorem autoSyncTime_never_backward (st : TimeSyncState) (ts : Nat)
    (obs : List Nat) :
    st.clock ≤ (autoSyncTime st ts).clock ∧
      ((autoSyncTime st ts).clock ≠ st.clock →
        st.clock + 10 < (autoSyncTime st ts).clock ∧
          (autoSyncTime st ts).time_sample_count = 0) ∧
      st.clock ≤ (obs.foldl autoSyncTime st).clock := by
  have hstep : ∀ (s : TimeSyncState) (t : Nat),
      s.clock ≤ (autoSyncTime s t).clock ∧
        ((autoSyncTime s t).clock ≠ s.clock →
          s.clock + 10 < (autoSyncTime s t).clock ∧
            (autoSyncTime s t).time_sample_count = 0) := by
    intro s t
    simp only [autoSyncTime]
    split
    · simp
    · split
      · simp
      · split
        · simp
        · split
          · rename_i hmed
            dsimp only
            refine ⟨by omega, fun _ => ⟨by omega, rfl⟩⟩
          · simp
  refine ⟨(hstep st ts).1, (hstep st ts).2, ?_⟩
  induction obs generalizing st with
  | nil => simp
  | cons o rest ih =>
    simp only [List.foldl_cons]
    exact Nat.le_trans (hstep st o).1 (ih (autoSyncTime st o))

/-- Witness for `autoSyncTime_never_backward`, exercising the inner
implication: from clock 1600000000 with two prior samples, the observation
1700000050 completes a 3-sample consensus whose median 1700000050 exceeds
clock + 10, so the clock jumps forward to it and the counter resets. -/
theorem autoSyncTime_never_backward_witness :
    (autoSyncTime ⟨[1700000000, 1700000100, 0, 0, 0], 2, 1600000000⟩
        1700000050).clock = 1700000050 ∧
      (1600000000 : Nat) + 10 < 1700000050 ∧
      (autoSyncTime ⟨[1700000000, 1700000100, 0, 0, 0], 2, 1600000000⟩
        1700000050).time_sample_count = 0 := by
  have h := (autoSyncTime_never_backward
    ⟨[1700000000, 1700000100, 0, 0, 0], 2, 1600000000⟩ 1700000050 []).2.1
  have hne : (autoSyncTime ⟨[1700000000, 1700000100, 0, 0, 0], 2, 1600000000⟩
      1700000050).clock ≠ 1600000000 := by decide
  exact ⟨by decide, by decide, (h hne).2⟩

/-- C3 (counterexample): a concrete run reaching an even (4) populated
sample count.  From clock 1700000000, observe 1700000000, 1700000001,
1700000050 (3 samples: median 1700000001, no correction), then 1700000060.
With 4 populated samples sorted as `[1700000000, 1700000001, 1700000050,
1700000060]`, the code uses `sorted[4 / 2] = sorted[2] = 1700000050` — the
upper-middle — and corrects the clock to it; the lower-middle element
1700000001 would not even have triggered a correction. -/
theorem autoSyncTime_even_median_not_lower_middle :
    (autoSyncTime (autoSyncTime (autoSyncTime (autoSyncTime
          ⟨[0, 0, 0, 0, 0], 0, 1700000000⟩ 1700000000) 1700000001)
        1700000050) 1700000060).clock = 1700000050 ∧
      (sortNat [1700000000, 1700000001, 1700000050, 1700000060]).getD 1 0
        = 1700000001 ∧
      (autoSyncTime (autoSyncTime (autoSyncTime (autoSyncTime
          ⟨[0, 0, 0, 0, 0], 0, 1700000000⟩ 1700000000) 1700000001)
        1700000050) 1700000060).clock
        ≠ (sortNat [1700000000, 1700000001, 1700000050, 1700000060]).getD 1 0 := by
  refine ⟨by decide, by decide, by decide⟩

/-- C3 (amended): over an even number of populated samples the consensus
selects the **upper**-middle element of the sorted samples, `sorted[n / 2]`.
Concretely, with three samples already recorded (count 3) a fourth accepted
observation `d` yields `median = (sortNat [s0, s1, s2, d]).getD 2 0`, the
upper-middle of the four populated samples, and the clock becomes that
median exactly when it exceeds the clock by more than 10. -/
theorem autoSyncTime_even_median_upper_middle (s0 s1 s2 d clock : Nat)
    (hd1 : 1600000000 ≤ d) (hd2 : d ≤ MAX_REASONABLE_TIMESTAMP)
    (hd3 : clock ≤ d + 3600) :
    (autoSyncTime ⟨[s0, s1, s2, 0, 0], 3, clock⟩ d).clock
      = (if clock + 10 < (sortNat [s0, s1, s2, d]).getD 2 0
          then (sortNat [s0, s1, s2, d]).getD 2 0 else clock) := by
  simp only [MAX_REASONABLE_TIMESTAMP] at hd2
  simp only [autoSyncTime]
  rw [if_neg (by simp only [MAX_REASONABLE_TIMESTAMP]; omega),
    if_neg (by omega)]
  norm_num [TIME_SAMPLE_SIZE, List.set, List.take]
  split <;> simp

/-- Witness for `autoSyncTime_even_median_upper_middle` at samples
`[1700000000, 1700000001, 1700000050]`, fourth observation 1700000060,
clock 1700000000: the upper-middle 1700000050 is adopted. -/
theorem autoSyncTime_even_median_upper_middle_witness :
    (1600000000 : Nat) ≤ 1700000060 ∧
      (1700000060 : Nat) ≤ MAX_REASONABLE_TIMESTAMP ∧
      (1700000000 : Nat) ≤ 1700000060 + 3600 ∧
      (autoSyncTime ⟨[1700000000, 1700000001, 1700000050, 0, 0], 3,
          1700000000⟩ 1700000060).clock
        = (if 1700000000 + 10
              < (sortNat [1700000000, 1700000001, 1700000050, 1700000060]).getD 2 0
            then (sortNat [1700000000, 1700000001, 1700000050,
                1700000060]).getD 2 0
            else 1700000000) :=
  ⟨by decide, by decide, by decide,
    autoSyncTime_even_median_upper_middle 1700000000 1700000001 1700000050
      1700000060 1700000000 (by decide) (by decide) (by decide)⟩

/-- C4 (counterexample): feeding `[100, 105, 1000000, 102, 98]` with the
local clock at 99 does not correct the clock to 102: every one of those
timestamps is below the epoch floor 1600000000, so each observation is
rejected with no state change and the clock stays 99. -/
theorem autoSyncTime_raw_outlier_samples_rejected :
    ([100, 105, 1000000, 102, 98].foldl autoSyncTime
        ⟨[0, 0, 0, 0, 0], 0, 99⟩).clock = 99 ∧
      ([100, 105, 1000000, 102, 98].foldl autoSyncTime
        ⟨[0, 0, 0, 0, 0], 0, 99⟩).clock ≠ 102 := by
  refine ⟨by decide, by decide⟩

/-- C4 (amended): with the local clock at 99, the five samples
`[100, 105, 1000000, 102, 98]` are all below the sane-range floor
(1600000000), so each is ignored with no state change: the run leaves the
time-sync state — samples, counter and clock — exactly as it started. -/
theorem autoSyncTime_raw_samples_no_state_change :
    [100, 105, 1000000, 102, 98].foldl autoSyncTime
        ⟨[0, 0, 0, 0, 0], 0, 99⟩
      = ⟨[0, 0, 0, 0, 0], 0, 99⟩ := by
  decide

/-! ## Delivery retry engine (`examples/simple_secure_chat/main.cpp`) -/

/-- Source `#define MAX_SEND_ATTEMPTS 3` — source comment: "Try 3 times before
giving up" (main.cpp:146). -/
def MAX_SEND_ATTEMPTS : Nat := 3

/-- Source `#define RETRY_FALLBACK_ATTEMPT 2` — "Fall back to flood on attempt 2+"
(main.cpp:147). -/
def RETRY_FALLBACK_ATTEMPT : Nat := 2

/-- Route mode of one accepted transmission. -/
inductive RouteMode where
  | direct
  | flood
deriving Repr, DecidableEq

/-- Delivery state of `MyMesh`: `expected_ack_crc`, `pending_message`
(text bytes; the empty list models `pending_message[0] == 0`),
`send_attempt`, the recipient (`has_recipient` for `curr_recipient !=
NULL`, `out_path_len` for `curr_recipient->out_path_len`, an `int8_t`
where `-1` means no known direct path), the pending message's ACK
correlator `msg_crc`, and `sent`, the log of accepted transmissions
(route mode, in order). -/
structure ChatSendState where
  expected_ack_crc : Nat
  pending_message : List Nat
  send_attempt : Nat
  has_recipient : Bool
  out_path_len : Int
  msg_crc : Nat
  sent : List RouteMode
deriving Repr, DecidableEq

/-- Modelled from the spec: `BaseChatMesh::sendMessage` is a library
collaborator not under this tree.  Per the spec (§4.4, §6) a transmission
uses the current route hint on the recipient — direct if a path is known
(`out_path_len >= 0`), flood otherwise — and on transport acceptance the
engine records the expected ACK fingerprint, a CRC-style correlator derived
from the message content/timestamp (`msg_crc` here, constant across retries
of the same pending message).  Transport acceptance is assumed (the
`MSG_SEND_FAILED` path, immediate failure on pool exhaustion, is not
exercised by the claims below). -/
def sendMessage (s : ChatSendState) : ChatSendState :=
  let route := if 0 ≤ s.out_path_len then RouteMode.direct else RouteMode.flood
  { s with expected_ack_crc := s.msg_crc, sent := s.sent ++ [route] }

/-- Source `MyMesh::trySendPendingMessage` (main.cpp:450-477):
`if (!curr_recipient || pending_message[0] == 0) return;` then the send.
The UI printing and history bookkeeping carry no protocol state. -/
def trySendPendingMessage (s : ChatSendState) : ChatSendState :=
  if s.has_recipient = false ∨ s.pending_message = [] then s
  else sendMessage s

/-- Source `MyMesh::cmdSend` (main.cpp:483-510), direct-recipient path: store the
text for retries, reset `send_attempt` to 0, and attempt to send.  (Length
validation and timestamp assignment do not affect the retry claims.) -/
def cmdSend (s : ChatSendState) (text : List Nat) : ChatSendState :=
  trySendPendingMessage
    { s with pending_message := text, send_attempt := 0 }

/-- Source `MyMesh::onSendTimeout` (main.cpp:1360-1388): if the ACK is still
outstanding, either retry — incrementing `send_attempt`, forcing
`out_path_len = -1` (flood) once `send_attempt >= RETRY_FALLBACK_ATTEMPT`
with a recipient whose path is known — or, when attempts are exhausted,
clear the pending message and the expected ACK (user-visible failure). -/
def onSendTimeout (s : ChatSendState) : ChatSendState :=
  if s.expected_ack_crc ≠ 0 then
    if s.send_attempt < MAX_SEND_ATTEMPTS ∧ s.pending_message ≠ [] then
      let s1 := { s with send_attempt := s.send_attempt + 1 }
      let s2 := if RETRY_FALLBACK_ATTEMPT ≤ s1.send_attempt ∧
          s1.has_recipient = true ∧ 0 ≤ s1.out_path_len then
        { s1 with out_path_len := -1 }
      else s1
      trySendPendingMessage s2
    else
      { s with pending_message := [], expected_ack_crc := 0 }
  else s

/-- The scenario of the retry-bound claim: a send of "hi" to a recipient
with a known 2-hop direct path, ACK correlator `0xDEAD`. -/
def retryScenarioStart : ChatSendState :=
  cmdSend ⟨0, [], 0, true, 2, 0xDEAD, []⟩ [104, 105]

/-- C2 (code bug): with `MAX_SEND_ATTEMPTS = 3` and every transmission
timing out, the engine performs a **fourth** transmission of the pending
message.  After the initial send (`sent.length = 1`), each of the first
three timeouts retries (`send_attempt < 3` holds for 0, 1 and 2), so after
three timeouts four transmissions have occurred and the message is still
pending; only the fourth timeout clears the pending state — contradicting
the source's own `MAX_SEND_ATTEMPTS 3 // Try 3 times before giving up`. -/
theorem onSendTimeout_four_transmissions :
    retryScenarioStart.sent.length = 1 ∧
      (onSendTimeout (onSendTimeout (onSendTimeout
        retryScenarioStart))).sent.length = 4 ∧
      (onSendTimeout (onSendTimeout (onSendTimeout
        retryScenarioStart))).pending_message ≠ [] ∧
      (onSendTimeout (onSendTimeout (onSendTimeout (onSendTimeout
        retryScenarioStart)))).sent.length = 4 ∧
      (onSendTimeout (onSendTimeout (onSendTimeout (onSendTimeout
        retryScenarioStart)))).pending_message = [] ∧
      (onSendTimeout (onSendTimeout (onSendTimeout (onSendTimeout
        retryScenarioStart)))).expected_ack_crc = 0 := by
  refine ⟨by decide, by decide, by decide, by decide, by decide, by decide⟩

/-- C5 (confirmed): awaiting the ACK of a first transmission that used a
known direct path (`send_attempt = 0`, `out_path_len ≥ 0`), two consecutive
timeouts produce exactly two further transmissions: the first retry still
direct, the transmission after the second timeout via flood — the known
direct path having been overridden (`out_path_len = -1`). -/
theorem onSendTimeout_fallback_to_flood (s : ChatSendState)
    (hack : s.expected_ack_crc ≠ 0) (hpend : s.pending_message ≠ [])
    (hatt : s.send_attempt = 0) (hrec : s.has_recipient = true)
    (hpath : 0 ≤ s.out_path_len) (hcrc : s.msg_crc ≠ 0) :
    (onSendTimeout (onSendTimeout s)).sent
        = s.sent ++ [RouteMode.direct, RouteMode.flood] ∧
      (onSendTimeout (onSendTimeout s)).out_path_len = -1 := by
  have trySend_send : ∀ t : ChatSendState, t.has_recipient = true →
      t.pending_message ≠ [] → trySendPendingMessage t = sendMessage t := by
    intro t h1 h2
    rw [trySendPendingMessage, if_neg]
    simp [h1, h2]
  obtain ⟨ack, pend, att, rec, path, crc, sent⟩ := s
  simp only at hack hpend hatt hrec hpath hcrc
  subst hatt hrec
  have h1 : onSendTimeout ⟨ack, pend, 0, true, path, crc, sent⟩
      = ⟨crc, pend, 1, true, path, crc, sent ++ [RouteMode.direct]⟩ := by
    simp only [onSendTimeout, MAX_SEND_ATTEMPTS, RETRY_FALLBACK_ATTEMPT]
    rw [if_pos hack, if_pos ⟨by omega, hpend⟩, if_neg (by simp)]
    rw [trySend_send _ rfl hpend]
    simp only [sendMessage]
    rw [if_pos hpath]
  have h2 : onSendTimeout ⟨crc, pend, 1, true, path, crc,
        sent ++ [RouteMode.direct]⟩
      = ⟨crc, pend, 2, true, -1, crc,
          sent ++ [RouteMode.direct] ++ [RouteMode.flood]⟩ := by
    simp only [onSendTimeout, MAX_SEND_ATTEMPTS, RETRY_FALLBACK_ATTEMPT]
    rw [if_pos hcrc, if_pos ⟨by omega, hpend⟩,
      if_pos ⟨by omega, by trivial, hpath⟩]
    rw [trySend_send _ rfl hpend]
    simp only [sendMessage]
    rw [if_neg (by omega)]
  rw [h1, h2]
  simp

/-- Witness for `onSendTimeout_fallback_to_flood`: awaiting an ACK (crc 7)
for pending text `[104]`, attempt 0, recipient with a 0-hop direct path. -/
theorem onSendTimeout_fallback_to_flood_witness :
    (7 : Nat) ≠ 0 ∧ ([104] : List Nat) ≠ [] ∧ (0 : Int) ≤ 0 ∧
      (onSendTimeout (onSendTimeout
          (⟨7, [104], 0, true, 0, 7, []⟩ : ChatSendState))).sent
        = [RouteMode.direct, RouteMode.flood] ∧
      (onSendTimeout (onSendTimeout
          (⟨7, [104], 0, true, 0, 7, []⟩ : ChatSendState))).out_path_len = -1 := by
  have h := onSendTimeout_fallback_to_flood ⟨7, [104], 0, true, 0, 7, []⟩
    (by decide) (by decide) (by decide) (by decide) (by decide) (by decide)
  exact ⟨by decide, by decide, by decide, by simpa using h.1, h.2⟩

end MeshCore
